import Mathlib

/-!
Verification of the claude-code-zed server against its specification.

The Rust sources are embedded shallowly: strings become `List Char`
(a Lean `Char` is one Unicode scalar value, exactly like a Rust `char`),
byte offsets are the cumulative UTF-8 sizes of the characters, and the
stateful parts (filesystem, sockets, the connection loop) become explicit
state passing over small state types.
-/

/-- UTF-16 code-unit width of a character, as computed by Rust's
`char::len_utf16` (used at `src/lsp/utils.rs:15`): 1 for code points up to
U+FFFF, 2 for supplementary-plane (surrogate pair) code points. -/
def len_utf16 (c : Char) : Nat :=
  if c.toNat ≤ 0xFFFF then 1 else 2

/-- UTF-8 byte width of a character, as computed by Rust's `char::len_utf8`;
this is the width that `str::char_indices` advances by in
`char_pos_to_byte_pos`. -/
def len_utf8 (c : Char) : Nat :=
  if c.toNat ≤ 0x7F then 1
  else if c.toNat ≤ 0x7FF then 2
  else if c.toNat ≤ 0xFFFF then 3
  else 4

/-- Total UTF-16 code-unit length of a line. -/
def utf16_len (l : List Char) : Nat := (l.map len_utf16).sum

/-- Total UTF-8 byte length of a line (Rust's `str::len`). -/
def byte_len (l : List Char) : Nat := (l.map len_utf8).sum

/-- The loop of `char_pos_to_byte_pos` (`src/lsp/utils.rs:10-23`): walks the
characters with the running byte position (`byte_pos` of `char_indices`) and
the running UTF-16 position `current_utf16_pos`; after the loop, the position
equal to the total UTF-16 length maps to the line's byte length
(`src/lsp/utils.rs:26-28`), anything larger to `none`. -/
def char_pos_loop (utf16_pos : Nat) : List Char → Nat → Nat → Option Nat
  | [], byte_pos, current =>
      if current = utf16_pos then some byte_pos else none
  | c :: rest, byte_pos, current =>
      if current = utf16_pos then some byte_pos
      else if utf16_pos < current + len_utf16 c then some byte_pos
      else char_pos_loop utf16_pos rest (byte_pos + len_utf8 c) (current + len_utf16 c)

/-- Embedding of `char_pos_to_byte_pos` (`src/lsp/utils.rs:7-31`): convert an
LSP UTF-16 code-unit position within a line to a UTF-8 byte position. -/
def char_pos_to_byte_pos (line : List Char) (utf16_pos : Nat) : Option Nat :=
  char_pos_loop utf16_pos line 0 0

theorem one_le_len_utf16 (c : Char) : 1 ≤ len_utf16 c := by
  unfold len_utf16; split <;> omega

theorem one_le_len_utf8 (c : Char) : 1 ≤ len_utf8 c := by
  unfold len_utf8; repeat' split
  all_goals omega

theorem utf16_len_cons (c : Char) (l : List Char) :
    utf16_len (c :: l) = len_utf16 c + utf16_len l := by
  simp [utf16_len]

theorem byte_len_cons (c : Char) (l : List Char) :
    byte_len (c :: l) = len_utf8 c + byte_len l := by
  simp [byte_len]

/-- After the walk exhausts the line, a target equal to the accumulated total
UTF-16 length maps to the accumulated total byte length. -/
theorem char_pos_loop_total (l : List Char) :
    ∀ b cur, char_pos_loop (cur + utf16_len l) l b cur = some (b + byte_len l) := by
  induction l with
  | nil => intro b cur; simp [char_pos_loop, utf16_len, byte_len]
  | cons c rest ih =>
      intro b cur
      have h16 := one_le_len_utf16 c
      rw [utf16_len_cons, byte_len_cons]
      unfold char_pos_loop
      have hne : ¬ cur = cur + (len_utf16 c + utf16_len rest) := by omega
      have hnl : ¬ cur + (len_utf16 c + utf16_len rest) < cur + len_utf16 c := by omega
      rw [if_neg hne, if_neg hnl]
      have := ih (b + len_utf8 c) (cur + len_utf16 c)
      rw [show cur + len_utf16 c + utf16_len rest = cur + (len_utf16 c + utf16_len rest) by omega] at this
      rw [this]
      congr 1
      omega

/-- A target falling inside the UTF-16 span of character `c` maps to the byte
position at which `c` starts. -/
theorem char_pos_loop_within (pre : List Char) (c : Char) (suf : List Char) :
    ∀ b cur pos, cur + utf16_len pre ≤ pos → pos < cur + utf16_len pre + len_utf16 c →
      char_pos_loop pos (pre ++ c :: suf) b cur = some (b + byte_len pre) := by
  induction pre with
  | nil =>
      intro b cur pos h1 h2
      simp only [utf16_len, byte_len, List.map_nil, List.sum_nil, Nat.add_zero] at h1 h2 ⊢
      simp only [List.nil_append]
      unfold char_pos_loop
      by_cases h : cur = pos
      · rw [if_pos h]
      · rw [if_neg h, if_pos (by omega)]
  | cons d pre ih =>
      intro b cur pos h1 h2
      have h16 := one_le_len_utf16 d
      rw [utf16_len_cons] at h1 h2
      rw [byte_len_cons, List.cons_append]
      unfold char_pos_loop
      have hne : ¬ cur = pos := by omega
      have hnl : ¬ pos < cur + len_utf16 d := by omega
      rw [if_neg hne, if_neg hnl]
      have := ih (b + len_utf8 d) (cur + len_utf16 d) pos (by omega) (by omega)
      rw [this]
      congr 1
      omega

/-- C1: for every line and UTF-16 code-unit offset, `char_pos_to_byte_pos`
returns the starting byte offset of the character within whose UTF-16 span the
offset falls (decomposition `pre ++ c :: suf` with the offset in `c`'s span),
returns the line's byte length when the offset equals the line's total UTF-16
code-unit length, and on the line "a😀b" maps offset 1 to byte 1 (right after
'a') and offset 3 to byte 5 (right before 'b'). -/
theorem C1_char_pos_to_byte_pos (pre : List Char) (c : Char) (suf : List Char)
    (pos : Nat) (l : List Char)
    (h1 : utf16_len pre ≤ pos) (h2 : pos < utf16_len pre + len_utf16 c) :
    char_pos_to_byte_pos (pre ++ c :: suf) pos = some (byte_len pre)
    ∧ char_pos_to_byte_pos l (utf16_len l) = some (byte_len l)
    ∧ char_pos_to_byte_pos ['a', '😀', 'b'] 1 = some 1
    ∧ char_pos_to_byte_pos ['a', '😀', 'b'] 3 = some 5 := by
  refine ⟨?_, ?_, by decide, by decide⟩
  · have := char_pos_loop_within pre c suf 0 0 pos (by omega) (by omega)
    simpa [char_pos_to_byte_pos] using this
  · have := char_pos_loop_total l 0 0
    simpa [char_pos_to_byte_pos] using this

theorem C1_char_pos_to_byte_pos_witness :
    char_pos_to_byte_pos (['a'] ++ '😀' :: ['b']) 1 = some (byte_len ['a'])
    ∧ char_pos_to_byte_pos ['x'] (utf16_len ['x']) = some (byte_len ['x'])
    ∧ char_pos_to_byte_pos ['a', '😀', 'b'] 1 = some 1
    ∧ char_pos_to_byte_pos ['a', '😀', 'b'] 3 = some 5 :=
  C1_char_pos_to_byte_pos ['a'] '😀' ['b'] 1 ['x'] (by decide) (by decide)

/-- Byte-offset suffix slicing `&line[n..]` as used at `src/lsp/utils.rs:66`;
`n` is always a character-boundary byte offset produced by
`char_pos_to_byte_pos` in the source. -/
def drop_bytes : List Char → Nat → List Char
  | [], _ => []
  | c :: rest, n => if n = 0 then c :: rest else drop_bytes rest (n - len_utf8 c)

/-- Byte-offset prefix slicing `&line[..n]` as used at `src/lsp/utils.rs:72`;
`n` is always a character-boundary byte offset produced by
`char_pos_to_byte_pos` in the source. -/
def take_bytes : List Char → Nat → List Char
  | [], _ => []
  | c :: rest, n => if n = 0 then [] else c :: take_bytes rest (n - len_utf8 c)

/-- The loop of the multi-line branch of `read_text_from_range`
(`src/lsp/utils.rs:60-84`): iterates `line_index` (here `idx`) over
`start.line..=end.line` with the `enumerate` counter `i`; the fuel argument is
the number of remaining iterations. A missing line contributes nothing (the
newline push at `utils.rs:80-82` is inside the `if let Some(line)` block). -/
def rtfr_loop (lines : List (List Char)) (startChar endLine endChar : Nat) :
    Nat → Nat → Nat → List Char
  | _, _, 0 => []
  | idx, i, fuel + 1 =>
    let piece :=
      match lines.get? idx with
      | none => []
      | some line =>
        let seg :=
          if i = 0 then
            match char_pos_to_byte_pos line startChar with
            | some start_byte => drop_bytes line start_byte
            | none => []
          else if idx = endLine then
            match char_pos_to_byte_pos line endChar with
            | some end_byte => take_bytes line end_byte
            | none => []
          else line
        seg ++ (if idx < endLine then ['\n'] else [])
    piece ++ rtfr_loop lines startChar endLine endChar (idx + 1) (i + 1) fuel

/-- Embedding of `read_text_from_range` (`src/lsp/utils.rs:34-95`) after the
file has been read and split into `lines` (the `content.lines()` vector); the
range is `(startLine, startChar)`-`(endLine, endChar)` in LSP coordinates.
All failure branches return the empty string (`String::new()`). -/
def read_text_from_range (lines : List (List Char))
    (startLine startChar endLine endChar : Nat) : List Char :=
  if startLine = endLine then
    match lines.get? startLine with
    | some line =>
      match char_pos_to_byte_pos line startChar, char_pos_to_byte_pos line endChar with
      | some start_byte, some end_byte =>
          if start_byte ≤ end_byte then
            take_bytes (drop_bytes line start_byte) (end_byte - start_byte)
          else []
      | some _, none => []
      | none, _ => []
    | none => []
  else
    rtfr_loop lines startChar endLine endChar startLine 0 (endLine + 1 - startLine)

/-- Specification-side join: the selected line fragments joined with exactly
one newline between consecutive fragments and no trailing newline. -/
def join_lines : List (List Char) → List Char
  | [] => []
  | [l] => l
  | l :: ls => l ++ '\n' :: join_lines ls

/-- Helper: every fragment followed by a newline (the non-final fragments of a
join). -/
def mid_join : List (List Char) → List Char
  | [] => []
  | l :: ls => l ++ '\n' :: mid_join ls

theorem join_lines_cons_of_ne_nil (x : List Char) (ls : List (List Char))
    (h : ls ≠ []) : join_lines (x :: ls) = x ++ '\n' :: join_lines ls := by
  cases ls with
  | nil => exact absurd rfl h
  | cons a as => rfl

theorem join_lines_append (ls : List (List Char)) (y : List Char) :
    join_lines (ls ++ [y]) = mid_join ls ++ y := by
  induction ls with
  | nil => rfl
  | cons a as ih =>
      rw [List.cons_append, join_lines_cons_of_ne_nil a (as ++ [y]) (by simp), ih]
      simp [mid_join]

/-- From the last line onward (the `enumerate` counter `i` being positive and
the index having reached `endLine` after `n` more interior lines), the loop
produces the interior lines each followed by a newline, then the clipped last
line. -/
theorem rtfr_loop_tail (lines : List (List Char)) (sc el ec : Nat)
    (last : List Char) (eb : Nat)
    (hlen : el < lines.length)
    (hlast : lines.get? el = some last)
    (heb : char_pos_to_byte_pos last ec = some eb) :
    ∀ n idx i, 0 < i → idx + n = el →
      rtfr_loop lines sc el ec idx i (n + 1) =
        mid_join ((lines.drop idx).take n) ++ take_bytes last eb := by
  intro n
  induction n with
  | zero =>
      intro idx i hi hidx
      simp only [Nat.add_zero] at hidx
      subst hidx
      have hi0 : ¬ i = 0 := by omega
      unfold rtfr_loop
      rw [hlast]
      simp [hi0, heb, mid_join, rtfr_loop]
  | succ n ih =>
      intro idx i hi hidx
      have hidxlt : idx < el := by omega
      have hidxlen : idx < lines.length := by omega
      have hi0 : ¬ i = 0 := by omega
      have hne : ¬ idx = el := by omega
      have hline : lines.get? idx = some lines[idx] := by
        rw [List.get?_eq_getElem?, List.getElem?_eq_getElem hidxlen]
      have hdrop : lines.drop idx = lines[idx] :: lines.drop (idx + 1) :=
        List.drop_eq_getElem_cons hidxlen
      unfold rtfr_loop
      rw [hline, ih (idx + 1) (i + 1) (by omega) (by omega), hdrop]
      simp [hi0, hne, hidxlt, mid_join]

/-- C2: for a multi-line selection (start line strictly before end line, all
referenced lines present, both offsets mappable), `read_text_from_range`
returns the first line from its mapped start byte offset to line end, the
interior lines verbatim, and the last line up to its mapped end byte offset,
joined with exactly one newline between consecutive lines and no trailing
newline; on lines ["foo","barbaz","qux"] with start (0,1) and end (2,2) the
result is "oo\nbarbaz\nqu". -/
theorem C2_read_text_from_range (lines : List (List Char)) (sl sc el ec : Nat)
    (first last : List Char) (sb eb : Nat)
    (hlt : sl < el) (hlen : el < lines.length)
    (hfirst : lines.get? sl = some first) (hlast : lines.get? el = some last)
    (hsb : char_pos_to_byte_pos first sc = some sb)
    (heb : char_pos_to_byte_pos last ec = some eb) :
    read_text_from_range lines sl sc el ec =
      join_lines (drop_bytes first sb ::
        ((lines.drop (sl + 1)).take (el - (sl + 1)) ++ [take_bytes last eb]))
    ∧ read_text_from_range
        [['f','o','o'], ['b','a','r','b','a','z'], ['q','u','x']] 0 1 2 2 =
        ['o','o','\n','b','a','r','b','a','z','\n','q','u'] := by
  refine ⟨?_, by decide⟩
  have hne : ¬ sl = el := by omega
  have hfuel : el + 1 - sl = el - (sl + 1) + 1 + 1 := by omega
  unfold read_text_from_range
  rw [if_neg hne, hfuel]
  unfold rtfr_loop
  rw [hfirst]
  simp only [Nat.zero_add]
  rw [rtfr_loop_tail lines sc el ec last eb hlen hlast heb (el - (sl + 1)) (sl + 1) 1
        Nat.one_pos (by omega)]
  rw [join_lines_cons_of_ne_nil _ _ (by simp), join_lines_append]
  simp [hsb, hlt]

theorem C2_read_text_from_range_witness :
    read_text_from_range [['f','o','o'], ['b','a','r','b','a','z'], ['q','u','x']] 0 1 2 2 =
      join_lines (drop_bytes ['f','o','o'] 1 ::
        (([['f','o','o'], ['b','a','r','b','a','z'], ['q','u','x']].drop (0 + 1)).take (2 - (0 + 1)) ++
          [take_bytes ['q','u','x'] 2]))
    ∧ read_text_from_range
        [['f','o','o'], ['b','a','r','b','a','z'], ['q','u','x']] 0 1 2 2 =
        ['o','o','\n','b','a','r','b','a','z','\n','q','u'] :=
  C2_read_text_from_range [['f','o','o'], ['b','a','r','b','a','z'], ['q','u','x']]
    0 1 2 2 ['f','o','o'] ['q','u','x'] 1 2 (by decide) (by decide) (by decide) (by decide)
    (by decide) (by decide)

/-- The scan loop of `find_available_port` (`src/websocket.rs:71-83`):
`bound p = true` models `TcpListener::bind` failing on port `p` (port already
in use); the loop tries `port_start..=port_end` ascending and returns the
first port that binds. The fuel argument is the number of ports left to try
(`port_end + 1 - port_start` at the first call). -/
def scan_port_range (bound : Nat → Bool) : Nat → Nat → Option Nat
  | _, 0 => none
  | p, n + 1 => if bound p then scan_port_range bound (p + 1) n else some p

/-- Embedding of `find_available_port` (`src/websocket.rs:52-90`): the
returned port is the one whose freshly bound listener the caller receives (the
listener itself is abstracted to its port); `none` models the
`No available ports in range` error. A preferred port is attempted first; on
its bind failure the range is scanned. -/
def find_available_port (bound : Nat → Bool) (preferred : Option Nat)
    (port_start port_end : Nat) : Option Nat :=
  match preferred with
  | some port =>
      if bound port then scan_port_range bound port_start (port_end + 1 - port_start)
      else some port
  | none => scan_port_range bound port_start (port_end + 1 - port_start)

theorem scan_port_range_some (bound : Nat → Bool) :
    ∀ n p q, scan_port_range bound p n = some q →
      p ≤ q ∧ q < p + n ∧ bound q = false ∧ ∀ r, p ≤ r → r < q → bound r = true := by
  intro n
  induction n with
  | zero => intro p q h; simp [scan_port_range] at h
  | succ n ih =>
      intro p q h
      unfold scan_port_range at h
      by_cases hb : bound p
      · rw [if_pos hb] at h
        obtain ⟨h1, h2, h3, h4⟩ := ih (p + 1) q h
        refine ⟨by omega, by omega, h3, ?_⟩
        intro r hr1 hr2
        by_cases hrp : r = p
        · rwa [hrp]
        · exact h4 r (by omega) hr2
      · rw [if_neg hb] at h
        obtain rfl : p = q := by simpa using h
        exact ⟨le_refl p, by omega, by simpa using hb, fun r hr1 hr2 => absurd hr2 (by omega)⟩

theorem scan_port_range_none (bound : Nat → Bool) :
    ∀ n p, scan_port_range bound p n = none ↔ ∀ q, p ≤ q → q < p + n → bound q = true := by
  intro n
  induction n with
  | zero => intro p; simp [scan_port_range]; intro q h1 h2; omega
  | succ n ih =>
      intro p
      unfold scan_port_range
      by_cases hb : bound p
      · rw [if_pos hb, ih (p + 1)]
        constructor
        · intro h q hq1 hq2
          by_cases hqp : q = p
          · rwa [hqp]
          · exact h q (by omega) (by omega)
        · intro h q hq1 hq2
          exact h q (by omega) (by omega)
      · rw [if_neg hb]
        simp only [reduceCtorEq, false_iff, not_forall]
        exact ⟨p, le_refl p, by omega, by simpa using hb⟩

/-- C3: the port allocator tries the preferred port first and returns it when
it binds; when the preferred port fails to bind (or none is given), the range
`[ps, pe]` is scanned ascending and the first bindable port is returned, and
the allocator fails exactly when every port of the range is already bound.
Concretely on a range `[P, P+2]` with `P` bound, it never returns `P`, returns
`P+1` or `P+2` when it returns at all, and fails exactly when all three ports
are bound. -/
theorem C3_find_available_port (bound : Nat → Bool) (ps pe : Nat)
    (pref : Option Nat) (p P : Nat)
    (hp : bound p = false)
    (hfail : ∀ r, pref = some r → bound r = true)
    (hP : bound P = true) :
    find_available_port bound (some p) ps pe = some p
    ∧ (∀ q, find_available_port bound pref ps pe = some q →
        ps ≤ q ∧ q ≤ pe ∧ bound q = false ∧ ∀ r, ps ≤ r → r < q → bound r = true)
    ∧ (find_available_port bound pref ps pe = none ↔
        ∀ q, ps ≤ q → q ≤ pe → bound q = true)
    ∧ find_available_port bound none P (P + 2) ≠ some P
    ∧ (∀ q, find_available_port bound none P (P + 2) = some q → q = P + 1 ∨ q = P + 2)
    ∧ (find_available_port bound none P (P + 2) = none ↔
        bound (P + 1) = true ∧ bound (P + 2) = true) := by
  have hscan : find_available_port bound pref ps pe =
      scan_port_range bound ps (pe + 1 - ps) := by
    cases pref with
    | none => rfl
    | some r => simp [find_available_port, hfail r rfl]
  have hsound : ∀ q, find_available_port bound pref ps pe = some q →
      ps ≤ q ∧ q ≤ pe ∧ bound q = false ∧ ∀ r, ps ≤ r → r < q → bound r = true := by
    intro q hq
    rw [hscan] at hq
    obtain ⟨h1, h2, h3, h4⟩ := scan_port_range_some bound (pe + 1 - ps) ps q hq
    exact ⟨h1, by omega, h3, h4⟩
  have hPsound : ∀ q, find_available_port bound none P (P + 2) = some q →
      P ≤ q ∧ q ≤ P + 2 ∧ bound q = false ∧ ∀ r, P ≤ r → r < q → bound r = true := by
    intro q hq
    obtain ⟨h1, h2, h3, h4⟩ := scan_port_range_some bound (P + 2 + 1 - P) P q hq
    exact ⟨h1, by omega, h3, h4⟩
  refine ⟨by simp [find_available_port, hp], hsound, ?_, ?_, ?_, ?_⟩
  · rw [hscan, scan_port_range_none]
    constructor
    · intro h q hq1 hq2
      exact h q hq1 (by omega)
    · intro h q hq1 hq2
      exact h q hq1 (by omega)
  · intro hcontra
    obtain ⟨-, -, h3, -⟩ := hPsound P hcontra
    rw [hP] at h3
    exact Bool.noConfusion h3
  · intro q hq
    obtain ⟨h1, h2, h3, -⟩ := hPsound q hq
    have hqP : ¬ q = P := fun h => by rw [h, hP] at h3; exact Bool.noConfusion h3
    omega
  · have := scan_port_range_none bound (P + 2 + 1 - P) P
    rw [show find_available_port bound none P (P + 2) =
          scan_port_range bound P (P + 2 + 1 - P) from rfl, this]
    constructor
    · intro h
      exact ⟨h (P + 1) (by omega) (by omega), h (P + 2) (by omega) (by omega)⟩
    · intro ⟨h1, h2⟩ q hq1 hq2
      have : q = P ∨ q = P + 1 ∨ q = P + 2 := by omega
      rcases this with rfl | rfl | rfl
      · exact hP
      · exact h1
      · exact h2

theorem C3_find_available_port_witness :
    find_available_port (fun n => n == 59792) (some 59793) 59792 59794 = some 59793
    ∧ (∀ q, find_available_port (fun n => n == 59792) (some 59792) 59792 59794 = some q →
        59792 ≤ q ∧ q ≤ 59794 ∧ (fun n => n == 59792) q = false
        ∧ ∀ r, 59792 ≤ r → r < q → (fun n => n == 59792) r = true)
    ∧ (find_available_port (fun n => n == 59792) (some 59792) 59792 59794 = none ↔
        ∀ q, 59792 ≤ q → q ≤ 59794 → (fun n => n == 59792) q = true)
    ∧ find_available_port (fun n => n == 59792) none 59792 (59792 + 2) ≠ some 59792
    ∧ (∀ q, find_available_port (fun n => n == 59792) none 59792 (59792 + 2) = some q →
        q = 59792 + 1 ∨ q = 59792 + 2)
    ∧ (find_available_port (fun n => n == 59792) none 59792 (59792 + 2) = none ↔
        (fun n => n == 59792) (59792 + 1) = true ∧ (fun n => n == 59792) (59792 + 2) = true) :=
  C3_find_available_port (fun n => n == 59792) 59792 59794 (some 59792) 59793 59792
    (by decide)
    (by intro r hr; obtain rfl : (59792 : Nat) = r := Option.some.inj hr; decide)
    (by decide)

/-- The lock descriptor written to `<home>/.claude/ide/<port>.lock`
(`src/websocket.rs:24-34`). -/
structure LockFile where
  pid : Nat
  workspace_folders : List String
  ide_name : String
  transport : String
  auth_token : String
deriving DecidableEq

/-- State of the discovery directory `~/.claude/ide`: whether the directory
exists and its lock files keyed by port (`<port>.lock`); a filesystem holds at
most one file per path, so writing a path replaces any entry with that key. -/
structure IdeDir where
  dir_exists : Bool
  files : List (Nat × LockFile)
deriving DecidableEq

/-- Embedding of `cleanup_lock_file` (`src/websocket.rs:162-179`): if the
discovery directory does not exist there is nothing to clean up; otherwise the
lock file for exactly this port is removed if present. Both absence branches
return the state unchanged (`Ok(())` without touching the filesystem). -/
def cleanup_lock_file (fs : IdeDir) (port : Nat) : IdeDir :=
  if fs.dir_exists = false then fs
  else if fs.files.any (fun e => e.1 == port) then
    { fs with files := fs.files.filter (fun e => e.1 != port) }
  else fs

/-- Workspace folder recorded in the descriptor (`src/websocket.rs:192-196`):
the provided worktree, else the current working directory. -/
def workspace_folder_of (worktree : Option String) (cwd : String) : String :=
  match worktree with
  | some wt => wt
  | none => cwd

/-- Embedding of `create_lock_file` (`src/websocket.rs:181-213`): ensures the
discovery directory exists (`create_dir_all`), builds the descriptor, and
writes `<port>.lock`; `fs::write` replaces whatever file was at that path. -/
def create_lock_file (fs : IdeDir) (port : Nat) (worktree : Option String)
    (auth_token : String) (pid : Nat) (cwd : String) : IdeDir :=
  let fs1 := if fs.dir_exists = false then { fs with dir_exists := true } else fs
  let lock_file_data : LockFile :=
    { pid := pid
      workspace_folders := [workspace_folder_of worktree cwd]
      ide_name := "claude-code-server"
      transport := "ws"
      auth_token := auth_token }
  { fs1 with files := (port, lock_file_data) :: fs1.files.filter (fun e => e.1 != port) }

/-- The lock-creation sequence the server runs after binding
(`src/websocket.rs:124-128`): `cleanup_lock_file` for stale files from crashed
processes, then `create_lock_file`. This is the spec's `createLock`. -/
def create_lock (fs : IdeDir) (port : Nat) (worktree : Option String)
    (auth_token : String) (pid : Nat) (cwd : String) : IdeDir :=
  create_lock_file (cleanup_lock_file fs port) port worktree auth_token pid cwd

theorem filter_after_exclude (port : Nat) (l : List (Nat × LockFile)) :
    ((l.filter (fun e => e.1 != port)).filter (fun e => e.1 == port)) = [] := by
  induction l with
  | nil => rfl
  | cons a as ih => by_cases h : a.1 = port <;> simp [List.filter_cons, h, ih]

theorem any_after_exclude (port : Nat) (l : List (Nat × LockFile)) :
    ((l.filter (fun e => e.1 != port)).any (fun e => e.1 == port)) = false := by
  induction l with
  | nil => rfl
  | cons a as ih => by_cases h : a.1 = port <;> simp [List.filter_cons, h, ih]

theorem create_lock_file_dir (fs : IdeDir) (port : Nat) (wt : Option String)
    (t : String) (pid : Nat) (cwd : String) :
    (create_lock_file fs port wt t pid cwd).dir_exists = true := by
  unfold create_lock_file
  by_cases h : fs.dir_exists = false <;> simp [h]

theorem create_lock_file_filter (fs : IdeDir) (port : Nat) (wt : Option String)
    (t : String) (pid : Nat) (cwd : String) :
    ((create_lock_file fs port wt t pid cwd).files.filter (fun e => e.1 == port)) =
      [(port, { pid := pid, workspace_folders := [workspace_folder_of wt cwd],
                ide_name := "claude-code-server", transport := "ws",
                auth_token := t })] := by
  unfold create_lock_file
  by_cases h : fs.dir_exists = false <;>
    simp [h, List.filter_cons, filter_after_exclude]

/-- C5: the spec's `createLock` (stale-file cleanup followed by descriptor
write, `src/websocket.rs:124-128`) ensures the discovery directory exists and
leaves exactly one lock file for the port, holding the freshly written
descriptor; `removeLock` (`cleanup_lock_file`) is the identity when no file
for the port exists (including a missing directory) and removes every file
for the port otherwise; hence create, remove, create for the same port leaves
exactly one lock file for that port, containing the newest auth token. -/
theorem C5_lock_file (fs fs3 fs4 : IdeDir) (port : Nat) (wt : Option String)
    (t1 t2 : String) (pid : Nat) (cwd : String)
    (hany : fs3.files.any (fun e => e.1 == port) = false)
    (hdir : fs4.dir_exists = true) :
    (create_lock fs port wt t1 pid cwd).dir_exists = true
    ∧ ((create_lock fs port wt t1 pid cwd).files.filter (fun e => e.1 == port)) =
        [(port, { pid := pid, workspace_folders := [workspace_folder_of wt cwd],
                  ide_name := "claude-code-server", transport := "ws",
                  auth_token := t1 })]
    ∧ cleanup_lock_file fs3 port = fs3
    ∧ ((cleanup_lock_file fs4 port).files.any (fun e => e.1 == port)) = false
    ∧ ((create_lock (cleanup_lock_file (create_lock fs port wt t1 pid cwd) port)
          port wt t2 pid cwd).files.filter (fun e => e.1 == port)) =
        [(port, { pid := pid, workspace_folders := [workspace_folder_of wt cwd],
                  ide_name := "claude-code-server", transport := "ws",
                  auth_token := t2 })] := by
  refine ⟨create_lock_file_dir _ _ _ _ _ _, create_lock_file_filter _ _ _ _ _ _, ?_, ?_,
    create_lock_file_filter _ _ _ _ _ _⟩
  · unfold cleanup_lock_file
    by_cases h : fs3.dir_exists = false <;> simp [h, hany]
  · unfold cleanup_lock_file
    rw [if_neg (by simp [hdir])]
    by_cases h : fs4.files.any (fun e => e.1 == port) = true
    · rw [if_pos h]
      exact any_after_exclude port fs4.files
    · rw [if_neg h]
      exact Bool.not_eq_true _ |>.mp h

theorem C5_lock_file_witness :
    (create_lock ⟨false, []⟩ 59792 none "token-one" 7 "/work").dir_exists = true
    ∧ ((create_lock ⟨false, []⟩ 59792 none "token-one" 7 "/work").files.filter
        (fun e => e.1 == 59792)) =
        [(59792, { pid := 7, workspace_folders := [workspace_folder_of none "/work"],
                   ide_name := "claude-code-server", transport := "ws",
                   auth_token := "token-one" })]
    ∧ cleanup_lock_file ⟨true, []⟩ 59792 = ⟨true, []⟩
    ∧ ((cleanup_lock_file ⟨true, [(59792, ⟨7, ["/work"], "claude-code-server", "ws", "token-one"⟩)]⟩
          59792).files.any (fun e => e.1 == 59792)) = false
    ∧ ((create_lock (cleanup_lock_file (create_lock ⟨false, []⟩ 59792 none "token-one" 7 "/work")
          59792) 59792 none "token-two" 7 "/work").files.filter (fun e => e.1 == 59792)) =
        [(59792, { pid := 7, workspace_folders := [workspace_folder_of none "/work"],
                   ide_name := "claude-code-server", transport := "ws",
                   auth_token := "token-two" })] :=
  C5_lock_file ⟨false, []⟩ ⟨true, []⟩
    ⟨true, [(59792, ⟨7, ["/work"], "claude-code-server", "ws", "token-one"⟩)]⟩
    59792 none "token-one" "token-two" 7 "/work" (by decide) (by decide)

/-- Observable actions of the parent watchdog task
(`src/lsp/watchdog.rs:33-63`): sending the shutdown signal, sleeping the
2-second grace interval, and the final `std::process::exit(0)` (reached only
when the graceful teardown has not already ended the process). -/
inductive WEvent where
  | signal
  | graceWait
  | forceExit
deriving DecidableEq

/-- Detection condition of the watchdog (`src/lsp/watchdog.rs:41`): the
current parent pid differs from the recorded initial one, or equals 1
(reparented to init). -/
def watchdog_detect (initial current : Nat) : Bool :=
  current != initial || current == 1

/-- Actions taken on detection (`src/lsp/watchdog.rs:42-60`): with a shutdown
channel, send the signal, sleep the grace interval, then force-exit; without
one, force-exit immediately. -/
def watchdog_on_detect (has_sender : Bool) : List WEvent :=
  if has_sender then [WEvent.signal, WEvent.graceWait, WEvent.forceExit]
  else [WEvent.forceExit]

/-- The watchdog polling loop (`src/lsp/watchdog.rs:34-62`) over the sequence
of parent pids it observes, one per 5-second cycle: the first detecting cycle
runs the detection actions and exits the process, so no later cycle runs. -/
def watchdog_run (initial : Nat) (has_sender : Bool) : List Nat → List WEvent
  | [] => []
  | p :: ps =>
      if watchdog_detect initial p then watchdog_on_detect has_sender
      else watchdog_run initial has_sender ps

/-- Modelled from the spec: the shutdown coordinator that receives the
watchdog's watch-channel signal and runs the teardown ("remove the lock file
for the bound port exactly once, exit", spec 4.6) is not under `src/` (only
the sending side, `src/lsp/watchdog.rs:52-54`, is); it removes the lock file
once per received shutdown signal. -/
def coordinator_lock_removals (events : List WEvent) : Nat :=
  events.count WEvent.signal

/-- C6: the watchdog triggers exactly when the observed parent pid differs
from the recorded initial pid or equals the init pid 1; on detection with a
shutdown channel it emits exactly one shutdown signal, then the bounded grace
wait, then the force-exit, regardless of how many later polling cycles would
also observe the change; without a channel it force-exits immediately; over
any observation sequence at most one shutdown signal and at most one
lock-file removal occur. -/
theorem C6_watchdog (initial cur p : Nat) (obs ps : List Nat)
    (hdet : watchdog_detect initial p = true) :
    (watchdog_detect initial cur = true ↔ (cur ≠ initial ∨ cur = 1))
    ∧ watchdog_run initial true (p :: ps) =
        [WEvent.signal, WEvent.graceWait, WEvent.forceExit]
    ∧ watchdog_run initial false (p :: ps) = [WEvent.forceExit]
    ∧ (watchdog_run initial true obs).count WEvent.signal ≤ 1
    ∧ coordinator_lock_removals (watchdog_run initial true obs) ≤ 1 := by
  have hcount : ∀ l : List Nat, (watchdog_run initial true l).count WEvent.signal ≤ 1 := by
    intro l
    induction l with
    | nil => simp [watchdog_run]
    | cons q qs ih =>
        unfold watchdog_run
        by_cases h : watchdog_detect initial q
        · rw [if_pos h]; decide
        · rwa [if_neg h]
  refine ⟨?_, ?_, ?_, hcount obs, hcount obs⟩
  · simp [watchdog_detect]
  · unfold watchdog_run; rw [if_pos hdet]; rfl
  · unfold watchdog_run; rw [if_pos hdet]; rfl

theorem C6_watchdog_witness :
    (watchdog_detect 100 100 = true ↔ ((100 : Nat) ≠ 100 ∨ (100 : Nat) = 1))
    ∧ watchdog_run 100 true (1 :: [1, 1, 1]) =
        [WEvent.signal, WEvent.graceWait, WEvent.forceExit]
    ∧ watchdog_run 100 false (1 :: [1, 1, 1]) = [WEvent.forceExit]
    ∧ (watchdog_run 100 true [1, 1]).count WEvent.signal ≤ 1
    ∧ coordinator_lock_removals (watchdog_run 100 true [1, 1]) ≤ 1 :=
  C6_watchdog 100 100 1 [1, 1] [1, 1, 1] (by decide)

/-- Lifecycle phases of the websocket server process, following the statement
order of `run_websocket_server_full` (`src/websocket.rs:104-158`): before the
bind, after `find_available_port` succeeds (line 113), after the lock file is
written (line 128), then the shutdown grace window (shutdown trigger observed;
lock removed by `cleanup_lock_file`, `src/websocket.rs:135`) and process
exit. -/
inductive SrvPhase where
  | started
  | bound (p : Nat)
  | advertised (p : Nat)
  | shuttingDown (p : Nat)
  | cleaned (p : Nat)
  | exited
deriving DecidableEq

/-- The port of the bound TCP listener, if one is held (the listener lives
from the successful bind until process exit). -/
def listener_of : SrvPhase → Option Nat
  | .started => none
  | .bound p => some p
  | .advertised p => some p
  | .shuttingDown p => some p
  | .cleaned p => some p
  | .exited => none

/-- The port advertised by the lock file, if one is on disk. -/
def lock_of : SrvPhase → Option Nat
  | .advertised p => some p
  | .shuttingDown p => some p
  | _ => none

/-- Whether the phase lies in the bounded shutdown grace window (between the
shutdown trigger and process exit). -/
def in_shutdown_grace : SrvPhase → Bool
  | .shuttingDown _ => true
  | .cleaned _ => true
  | _ => false

/-- Modelled from the spec: lifecycle transitions. `bind`, `bindFail` and
`advertise` follow `run_websocket_server_full` (`src/websocket.rs:113-128`:
bind first, lock file written only afterwards; on bind failure the error
propagates with nothing written). The `shutdown`-`cleanup`-`exit` order is the
Ctrl+C handler (`src/websocket.rs:132-139`: cleanup, then exit); for the
watchdog-triggered path the receiving coordinator is not under `src/` and the
same order is taken from spec 4.6/4.7 ("remove the lock file for the bound
port exactly once, exit"). -/
inductive SrvStep : SrvPhase → SrvPhase → Prop where
  | bind (p : Nat) : SrvStep .started (.bound p)
  | bindFail : SrvStep .started .exited
  | advertise (p : Nat) : SrvStep (.bound p) (.advertised p)
  | shutdown (p : Nat) : SrvStep (.advertised p) (.shuttingDown p)
  | cleanup (p : Nat) : SrvStep (.shuttingDown p) (.cleaned p)
  | exit (p : Nat) : SrvStep (.cleaned p) .exited

/-- States reachable in a server lifetime. -/
def SrvReachable (s : SrvPhase) : Prop :=
  Relation.ReflTransGen SrvStep SrvPhase.started s

/-- C7 as stated is false: right after the listener is bound and before the
lock file is written (`src/websocket.rs:113-128`), the server is outside any
shutdown grace window with a bound listener and no lock file. -/
theorem C7_counterexample :
    ¬ (∀ s : SrvPhase, SrvReachable s → in_shutdown_grace s = false →
        (listener_of s).isSome = (lock_of s).isSome) := by
  intro h
  have hr : SrvReachable (SrvPhase.bound 59792) :=
    Relation.ReflTransGen.single (SrvStep.bind 59792)
  have := h (SrvPhase.bound 59792) hr rfl
  simp [listener_of, lock_of] at this

/-- C7 amended: in every reachable state the lock file is present only while
the listener for the same port is bound (the descriptor is written only after
the bind succeeds); outside the shutdown grace window and the startup window
between bind and advertisement, listener and lock file are both present or
both absent; and every step into process exit happens with the lock file
already removed. -/
theorem C7_listener_lock (s s' : SrvPhase) (hs : SrvReachable s)
    (hstep : SrvStep s' SrvPhase.exited) :
    ((lock_of s).isSome = true → lock_of s = listener_of s ∧ (listener_of s).isSome = true)
    ∧ (in_shutdown_grace s = false → (∀ p, s ≠ SrvPhase.bound p) →
        (listener_of s).isSome = (lock_of s).isSome)
    ∧ lock_of s' = none := by
  refine ⟨?_, ?_, ?_⟩
  · cases s <;> simp [lock_of, listener_of]
  · intro hg hb
    cases s with
    | started => simp [listener_of, lock_of]
    | bound p => exact absurd rfl (hb p)
    | advertised p => simp [listener_of, lock_of]
    | shuttingDown p => simp [in_shutdown_grace] at hg
    | cleaned p => simp [in_shutdown_grace] at hg
    | exited => simp [listener_of, lock_of]
  · cases hstep <;> rfl

theorem C7_listener_lock_witness :
    ((lock_of (SrvPhase.advertised 59792)).isSome = true →
      lock_of (SrvPhase.advertised 59792) = listener_of (SrvPhase.advertised 59792)
      ∧ (listener_of (SrvPhase.advertised 59792)).isSome = true)
    ∧ (in_shutdown_grace (SrvPhase.advertised 59792) = false →
        (∀ p, SrvPhase.advertised 59792 ≠ SrvPhase.bound p) →
        (listener_of (SrvPhase.advertised 59792)).isSome =
          (lock_of (SrvPhase.advertised 59792)).isSome)
    ∧ lock_of (SrvPhase.cleaned 59792) = none :=
  C7_listener_lock (SrvPhase.advertised 59792) (SrvPhase.cleaned 59792)
    (Relation.ReflTransGen.tail
      (Relation.ReflTransGen.single (SrvStep.bind 59792)) (SrvStep.advertise 59792))
    (SrvStep.exit 59792)

/-- JSON values (`serde_json::Value`): objects keep their field order; the
claims under verification never depend on field ordering or rendering, so a
value stands for its serialized text wherever the source calls
`.to_string()`. -/
inductive JVal where
  | null
  | bool (b : Bool)
  | num (n : Int)
  | str (s : String)
  | arr (xs : List JVal)
  | obj (fields : List (String × JVal))

/-- `serde_json::Value::get` on an object (`None` on any other value). -/
def jget (v : JVal) (key : String) : Option JVal :=
  match v with
  | .obj fields => fields.lookup key
  | _ => none

/-- `serde_json::Value::as_str`. -/
def JVal.as_str : JVal → Option String
  | .str s => some s
  | _ => none

/-- Character-list prefix test; `str_starts_with` below models Rust's
`str::starts_with` used at `src/websocket.rs:336`. -/
def list_starts_with : List Char → List Char → Bool
  | _, [] => true
  | [], _ :: _ => false
  | c :: cs, p :: ps => c == p && list_starts_with cs ps

/-- Rust `str::starts_with`, defined over the character lists so that it
evaluates by kernel reduction. -/
def str_starts_with (s pre : String) : Bool :=
  list_starts_with s.toList pre.toList

/-- LSP position in a selection (`src/mcp/types.rs:90-94`). -/
structure SelectionPosition where
  line : Nat
  character : Nat

/-- Selection range (`src/mcp/types.rs:82-88`); serde renames `is_empty` to
`isEmpty`. -/
structure SelectionRange where
  start : SelectionPosition
  end_ : SelectionPosition
  is_empty : Bool

/-- Selection state replicated into each connection
(`src/mcp/types.rs:72-80`). -/
structure SelectionState where
  text : String
  file_path : String
  file_url : String
  selection : SelectionRange

/-- One content block (`src/mcp/types.rs:65-70`). The source stores the block
body as a `String`; where the source serializes a `serde_json` value with
`.to_string()`, the embedding keeps the JSON value itself (`JVal.str` for
literal strings), abstracting the injective rendering step. -/
structure TextContent where
  type_ : String
  text : JVal

/-- Serialization of a selection position. -/
def selection_position_json (p : SelectionPosition) : JVal :=
  .obj [("line", .num p.line), ("character", .num p.character)]

/-- Serialization of a selection range (field renames per
`src/mcp/types.rs:82-88`). -/
def selection_range_json (r : SelectionRange) : JVal :=
  .obj [("start", selection_position_json r.start),
        ("end", selection_position_json r.end_),
        ("isEmpty", .bool r.is_empty)]

/-- Embedding of `get_current_selection` (`src/mcp/tools/selection.rs:7-32`):
with a selection present, a success payload carrying it; otherwise a
`success:false` payload with an explanatory message. -/
def get_current_selection (selection_state : Option SelectionState) : List TextContent :=
  let response : JVal :=
    match selection_state with
    | some selection =>
        .obj [("success", .bool true), ("text", .str selection.text),
              ("filePath", .str selection.file_path),
              ("fileUrl", .str selection.file_url),
              ("selection", selection_range_json selection.selection)]
    | none => .obj [("success", .bool false), ("message", .str "No active editor found")]
  [{ type_ := "text", text := response }]

/-- Embedding of `get_latest_selection` (`src/mcp/tools/selection.rs:34-59`). -/
def get_latest_selection (selection_state : Option SelectionState) : List TextContent :=
  let response : JVal :=
    match selection_state with
    | some selection =>
        .obj [("success", .bool true), ("text", .str selection.text),
              ("filePath", .str selection.file_path),
              ("fileUrl", .str selection.file_url),
              ("selection", selection_range_json selection.selection)]
    | none => .obj [("success", .bool false), ("message", .str "No selection available")]
  [{ type_ := "text", text := response }]

/-- Approximation of `Path::file_name` over the path string
(`src/mcp/tools/workspace.rs:39-42`): the last nonempty, non-`.` slash
component, with `..` yielding none. -/
def split_slash : List Char → List (List Char)
  | [] => [[]]
  | c :: cs =>
      let r := split_slash cs
      if c == '/' then [] :: r
      else
        match r with
        | [] => [[c]]
        | h :: t => (c :: h) :: t

def path_file_name (s : String) : Option String :=
  match ((split_slash s.toList).filter
      (fun comp => !comp.isEmpty && comp != ['.'])).getLast? with
  | some comp => if comp == ['.', '.'] then none else some (String.mk comp)
  | none => none

/-- Embedding of `get_workspace_folders` (`src/mcp/tools/workspace.rs:23-53`);
`cwd` is the ambient `std::env::current_dir()` made explicit. -/
def get_workspace_folders (worktree cwd : Option String) : List TextContent :=
  let workspace_info : String :=
    match worktree with
    | some wt => wt
    | none =>
        match cwd with
        | some c => c
        | none => "Unknown workspace"
  let name := (path_file_name workspace_info).getD "workspace"
  [{ type_ := "text",
     text := .obj [("success", .bool true),
       ("folders", .arr [.obj [("name", .str name),
         ("uri", .str ("file://" ++ workspace_info)),
         ("path", .str workspace_info)]]),
       ("rootPath", .str workspace_info)] }]

/-- Embedding of `get_diagnostics` (`src/mcp/tools/document.rs:48-66`). Note:
`tools/mod.rs:23` passes the worktree where `document.rs:48` expects the JSON
arguments; the embedding follows the `document.rs` signature. -/
def get_diagnostics (arguments : JVal) : List TextContent :=
  match (jget arguments "uri").bind JVal.as_str with
  | some uri =>
      [{ type_ := "text", text := .arr [.obj [("uri", .str uri), ("diagnostics", .arr [])]] }]
  | none => [{ type_ := "text", text := .arr [] }]

/-- The graceful fallback block (`src/mcp/tools/mod.rs:39-44`). -/
def not_supported_response (tool_name : String) : List TextContent :=
  [{ type_ := "text",
     text := .str ("NOT_SUPPORTED: Tool \x27" ++ tool_name ++
       "\x27 is not available in Zed integration. File operations should be performed directly.") }]

/-- Embedding of `dispatch_tool` (`src/mcp/tools/mod.rs:12-37`): the four
working tools, with every name routed to the IDE-tools arm or the unknown arm
producing the same `not_supported_response`. -/
def dispatch_tool (tool_name : String) (arguments : JVal)
    (selection_state : Option SelectionState) (worktree cwd : Option String) :
    List TextContent :=
  match tool_name with
  | "getWorkspaceFolders" => get_workspace_folders worktree cwd
  | "getCurrentSelection" => get_current_selection selection_state
  | "getLatestSelection" => get_latest_selection selection_state
  | "getDiagnostics" => get_diagnostics arguments
  | _ => not_supported_response tool_name

/-- The per-connection MCP server state (`src/mcp/server.rs:10-14`): the
selection-state replica and the worktree; `cwd` is the ambient
`std::env::current_dir()` the workspace tool would observe, made explicit.
The static capability set is produced by `capabilities_json` below. -/
structure MCPServer where
  selection_state : Option SelectionState
  worktree : Option String
  cwd : Option String

/-- A freshly constructed connection handler
(`MCPServer::with_notifications`, `src/mcp/server.rs:21-49`): the selection
replica starts as `None` and is only ever set by a received
`selection_changed` notification. -/
def MCPServer.fresh (worktree cwd : Option String) : MCPServer :=
  { selection_state := none, worktree := worktree, cwd := cwd }

/-- JSON-RPC request envelope (`src/mcp/types.rs:4-10`). -/
structure MCPRequest where
  jsonrpc : String
  id : Option JVal
  method : String
  params : Option JVal

/-- JSON-RPC error object (`src/mcp/types.rs:22-27`). -/
structure MCPError where
  code : Int
  message : String
  data : Option JVal

/-- JSON-RPC response envelope (`src/mcp/types.rs:12-20`). -/
structure MCPResponse where
  jsonrpc : String
  id : Option JVal
  result : Option JVal
  error : Option MCPError

/-- The static capability set (`create_capabilities`,
`src/mcp/handlers.rs:133-143`, with the serde renames of
`src/mcp/types.rs:36-49`). -/
def capabilities_json : JVal :=
  .obj [("tools", .obj [("listChanged", .bool true)]),
        ("prompts", .obj [("listChanged", .bool false)]),
        ("logging", .obj [])]

/-- `handle_init_method` (`src/mcp/handlers.rs:46-61`). -/
def handle_init_method (_params : Option JVal) : Except String JVal :=
  .ok (.obj [("protocolVersion", .str "2025-03-26"),
             ("capabilities", capabilities_json),
             ("serverInfo", .obj [("name", .str "claude-code-server"),
                                  ("version", .str "0.1.0")])])

/-- `handle_tools_list` (`src/mcp/handlers.rs:63-71`): the catalog is empty. -/
def handle_tools_list : Except String JVal :=
  .ok (.obj [("tools", .arr [])])

/-- `handle_tools_call` (`src/mcp/handlers.rs:73-94`): missing params or a
missing tool name fail (propagated as `anyhow` errors); otherwise the
dispatcher result is wrapped as `{content, isError:false}`. -/
def handle_tools_call (server : MCPServer) (params : Option JVal) : Except String JVal :=
  match params with
  | none => .error "Missing parameters for tools/call"
  | some p =>
      match (jget p "name").bind JVal.as_str with
      | none => .error "Missing tool name"
      | some tool_name =>
          let arguments := (jget p "arguments").getD (.obj [])
          let content := dispatch_tool tool_name arguments server.selection_state
            server.worktree server.cwd
          .ok (.obj [("content", .arr (content.map fun tc =>
                  .obj [("type", .str tc.type_), ("text", tc.text)])),
                ("isError", .bool false)])

/-- `handle_logging_set_level` (`src/mcp/handlers.rs:96-106`). -/
def handle_logging_set_level (_params : Option JVal) : Except String JVal :=
  .ok (.obj [])

/-- `handle_prompts_list` (`src/mcp/handlers.rs:108-114`). -/
def handle_prompts_list : Except String JVal :=
  .ok (.obj [("prompts", .arr [])])

/-- `handle_prompts_get` (`src/mcp/handlers.rs:116-130`). -/
def handle_prompts_get (params : Option JVal) : Except String JVal :=
  match params with
  | none => .error "Missing parameters for prompts/get"
  | some p =>
      match (jget p "name").bind JVal.as_str with
      | none => .error "Missing prompt name"
      | some prompt_name =>
          .ok (.obj [("description", .str ("Prompt: " ++ prompt_name)),
                     ("messages", .arr [])])

/-- The method dispatch of `handle_request` (`src/mcp/handlers.rs:17-36`):
`some` wraps a known method's outcome (errors propagate via `?`), `none` is
the catch-all arm. -/
def handle_request_result (server : MCPServer) (req : MCPRequest) :
    Option (Except String JVal) :=
  if req.method = "initialize" then some (handle_init_method req.params)
  else if req.method = "tools/list" then some handle_tools_list
  else if req.method = "tools/call" then some (handle_tools_call server req.params)
  else if req.method = "logging/setLevel" then some (handle_logging_set_level req.params)
  else if req.method = "prompts/list" then some handle_prompts_list
  else if req.method = "prompts/get" then some (handle_prompts_get req.params)
  else none

/-- Embedding of `MCPServer::handle_request` (`src/mcp/handlers.rs:13-44`): a
known method's success is wrapped in a response echoing the request id; a
known method's failure propagates (to be answered by the websocket layer); an
unknown method is answered with the −32601 method-not-found response. -/
def handle_request (server : MCPServer) (req : MCPRequest) : Except String MCPResponse :=
  match handle_request_result server req with
  | some (.ok result) =>
      .ok { jsonrpc := "2.0", id := req.id, result := some result, error := none }
  | some (.error e) => .error e
  | none =>
      .ok { jsonrpc := "2.0", id := req.id, result := none,
            error := some { code := -32601,
                            message := "Method not found: " ++ req.method,
                            data := none } }

/-- An inbound websocket frame as seen by `handle_websocket_message`
(`src/websocket.rs:323-403`): a text frame carries the outcome of the
`serde_json::from_str::<MCPRequest>` decode (`none` = decode failure), plus
close frames and other (binary/ping/pong) frames. -/
inductive WsMsg where
  | text (decoded : Option MCPRequest)
  | close
  | binary

/-- Result of handling one inbound frame: the responses written to the socket
and whether the handler returned `Ok` (the connection loop continues) or an
error (the loop at `src/websocket.rs:274-277` breaks). Socket writes are
assumed to succeed; a failing write is an unrecoverable transport error
outside these claims. -/
structure MsgOutcome where
  sent : List MCPResponse
  ok : Bool

/-- The −32700 parse-error response (`src/websocket.rs:379-388`). -/
def parse_error_response : MCPResponse :=
  { jsonrpc := "2.0", id := none, result := none,
    error := some { code := -32700, message := "Parse error", data := none } }

/-- The −32603 internal-error response carrying the failure detail
(`src/websocket.rs:355-364`). -/
def internal_error_response (e : String) : MCPResponse :=
  { jsonrpc := "2.0", id := none, result := none,
    error := some { code := -32603, message := "Internal error",
                    data := some (.obj [("details", .str e)]) } }

/-- Embedding of `handle_websocket_message` (`src/websocket.rs:317-412`):
transport errors propagate (breaking the loop); an id-less
`notifications/...` request is accepted silently; a handler failure is
answered with the internal-error response; a decode failure with the
parse-error response; close and non-text frames do nothing. -/
def handle_websocket_message (server : MCPServer) (msg : Except String WsMsg) :
    MsgOutcome :=
  match msg with
  | .error _ => { sent := [], ok := false }
  | .ok (.text none) => { sent := [parse_error_response], ok := true }
  | .ok (.text (some mcp_request)) =>
      if mcp_request.id.isNone && str_starts_with mcp_request.method "notifications/" then
        { sent := [], ok := true }
      else
        match handle_request server mcp_request with
        | .ok response => { sent := [response], ok := true }
        | .error e => { sent := [internal_error_response e], ok := true }
  | .ok .close => { sent := [], ok := true }
  | .ok .binary => { sent := [], ok := true }

/-- An IDE notification forwarded over the bus
(`src/lsp/notifications.rs:36-41`). -/
structure JsonRpcNotification where
  jsonrpc : String
  method : String
  params : JVal

/-- A `tokio::sync::broadcast` receive error (`RecvError::Closed` or
`RecvError::Lagged`), the condition handled at `src/websocket.rs:304-308`. -/
inductive RecvErr where
  | closed
  | lagged (missed : Nat)

/-- One wakeup of the connection's `select!` loop
(`src/websocket.rs:268-311`): either the websocket stream yields (`none` =
stream ended) or the bus subscription yields. -/
inductive ConnEvent where
  | ws (m : Option (Except String WsMsg))
  | bus (n : Except RecvErr JsonRpcNotification)

/-- A frame written to the socket: a response or a forwarded notification. -/
inductive OutMsg where
  | resp (r : MCPResponse)
  | notif (n : JsonRpcNotification)

/-- The connection loop (`src/websocket.rs:268-312`) over the sequence of
events its `select!` observes; `sub` models whether `notification_receiver`
is still `Some`. Stream end or a frame-handling error breaks the loop; a bus
receive error drops the subscription (`notification_receiver = None`,
`src/websocket.rs:304-308`) and the loop continues; once the subscription is
dropped the bus arm is `pending()` and can produce nothing. -/
def conn_loop (server : MCPServer) (sub : Bool) : List ConnEvent → List OutMsg
  | [] => []
  | ev :: evs =>
      match ev with
      | .ws none => []
      | .ws (some m) =>
          let o := handle_websocket_message server m
          o.sent.map OutMsg.resp ++ (if o.ok then conn_loop server sub evs else [])
      | .bus (.ok n) =>
          if sub then OutMsg.notif n :: conn_loop server sub evs
          else conn_loop server sub evs
      | .bus (.error _) =>
          if sub then conn_loop server false evs
          else conn_loop server sub evs

/-- A response carries exactly one of the result and error fields. -/
def exactly_one_of_result_error (r : MCPResponse) : Prop :=
  (r.result.isSome = true ∧ r.error = none) ∨ (r.result = none ∧ r.error.isSome = true)

/-- Every `Ok` outcome of `handle_request` echoes the request id and carries
exactly one of result/error. -/
theorem handle_request_ok_shape (server : MCPServer) (req : MCPRequest)
    (resp : MCPResponse) (hok : handle_request server req = .ok resp) :
    resp.id = req.id ∧ exactly_one_of_result_error resp := by
  unfold handle_request at hok
  split at hok
  · obtain rfl := Except.ok.inj hok
    exact ⟨rfl, Or.inl ⟨rfl, rfl⟩⟩
  · exact Except.noConfusion hok
  · obtain rfl := Except.ok.inj hok
    exact ⟨rfl, Or.inr ⟨rfl, rfl⟩⟩

/-- Once the subscription is dropped, the connection loop never forwards a
notification frame. -/
theorem conn_loop_no_notif (server : MCPServer) :
    ∀ evs n, OutMsg.notif n ∈ conn_loop server false evs → False := by
  intro evs
  induction evs with
  | nil => intro n h; simp [conn_loop] at h
  | cons ev evs ih =>
      intro n h
      cases ev with
      | ws m =>
          cases m with
          | none => simp [conn_loop] at h
          | some msg =>
              simp only [conn_loop, List.mem_append, List.mem_map] at h
              rcases h with ⟨r, -, hr⟩ | h2
              · exact OutMsg.noConfusion hr
              · by_cases ho : (handle_websocket_message server msg).ok = true
                · rw [if_pos ho] at h2
                  exact ih n h2
                · rw [if_neg ho] at h2
                  simp at h2
      | bus r =>
          cases r with
          | ok n2 => simp only [conn_loop, Bool.false_eq_true, if_false] at h; exact ih n h
          | error e => simp only [conn_loop, Bool.false_eq_true, if_false] at h; exact ih n h

/-- C9: a bus receive error (lag/overflow or closed channel) makes the
connection drop its subscription and continue; after that no notification
frame is ever forwarded, while inbound requests keep being answered; the
condition never terminates the connection loop. -/
theorem C9_subscription_error (server : MCPServer) (e : RecvErr)
    (evs evs2 : List ConnEvent) (m : Except String WsMsg)
    (hok : (handle_websocket_message server m).ok = true) :
    conn_loop server true (ConnEvent.bus (.error e) :: evs) = conn_loop server false evs
    ∧ (∀ n, OutMsg.notif n ∉ conn_loop server false evs2)
    ∧ conn_loop server false (ConnEvent.ws (some m) :: evs2) =
        (handle_websocket_message server m).sent.map OutMsg.resp ++
          conn_loop server false evs2 := by
  refine ⟨by simp [conn_loop], fun n h => conn_loop_no_notif server evs2 n h, ?_⟩
  simp [conn_loop, hok]

theorem C9_subscription_error_witness :
    conn_loop (MCPServer.fresh none none) true [ConnEvent.bus (.error RecvErr.closed)] =
      conn_loop (MCPServer.fresh none none) false []
    ∧ (∀ n, OutMsg.notif n ∉ conn_loop (MCPServer.fresh none none) false
        [ConnEvent.ws (some (.ok WsMsg.close))])
    ∧ conn_loop (MCPServer.fresh none none) false
        [ConnEvent.ws (some (.ok WsMsg.close))] =
        (handle_websocket_message (MCPServer.fresh none none) (.ok WsMsg.close)).sent.map
          OutMsg.resp ++ conn_loop (MCPServer.fresh none none) false [] :=
  C9_subscription_error (MCPServer.fresh none none) RecvErr.closed []
    [ConnEvent.ws (some (.ok WsMsg.close))] (.ok WsMsg.close) rfl

/-- C8 as stated is false: a `tools/call` request carrying id 1 but no params
makes the handler fail, and the −32603 response the websocket layer sends
back carries a null id (`src/websocket.rs:355-364`), not the request's id. -/
theorem C8_counterexample :
    (handle_websocket_message (MCPServer.fresh none none)
        (.ok (.text (some { jsonrpc := "2.0", id := some (.num 1),
                            method := "tools/call", params := none })))).sent.map
      MCPResponse.id = [none]
    ∧ some (JVal.num 1) ≠ (none : Option JVal) := by
  refine ⟨rfl, ?_⟩
  intro h
  exact Option.noConfusion h

/-- C8 amended: every response produced by the request handler echoes the
request's id and carries exactly one of result/error; the parse-error and
handler-failure responses built in the websocket layer also carry exactly one
of result/error but a null id instead of the request's id. -/
theorem C8_response_shape (server : MCPServer) (req : MCPRequest)
    (resp : MCPResponse) (m : Except String WsMsg)
    (hok : handle_request server req = .ok resp) :
    resp.id = req.id
    ∧ exactly_one_of_result_error resp
    ∧ (∀ r, r ∈ (handle_websocket_message server m).sent → exactly_one_of_result_error r)
    ∧ parse_error_response.id = none
    ∧ ∀ e, (internal_error_response e).id = none := by
  obtain ⟨hid, hexc⟩ := handle_request_ok_shape server req resp hok
  refine ⟨hid, hexc, ?_, rfl, fun e => rfl⟩
  intro r hr
  cases m with
  | error e => simp [handle_websocket_message] at hr
  | ok w =>
      cases w with
      | close => simp [handle_websocket_message] at hr
      | binary => simp [handle_websocket_message] at hr
      | text d =>
          cases d with
          | none =>
              simp [handle_websocket_message] at hr
              subst hr
              exact Or.inr ⟨rfl, rfl⟩
          | some q =>
              simp only [handle_websocket_message] at hr
              by_cases hn : (q.id.isNone && str_starts_with q.method "notifications/") = true
              · rw [if_pos hn] at hr
                simp at hr
              · rw [if_neg hn] at hr
                cases hq : handle_request server q with
                | ok resp2 =>
                    rw [hq] at hr
                    simp at hr
                    rw [hr]
                    exact (handle_request_ok_shape server q resp2 hq).2
                | error e2 =>
                    rw [hq] at hr
                    simp at hr
                    rw [hr]
                    exact Or.inr ⟨rfl, rfl⟩

theorem C8_response_shape_witness :
    MCPResponse.id { jsonrpc := "2.0", id := some (JVal.num 1), result := some (.obj [("tools", .arr [])]), error := none } = MCPRequest.id { jsonrpc := "2.0", id := some (JVal.num 1), method := "tools/list", params := none }
    ∧ exactly_one_of_result_error { jsonrpc := "2.0", id := some (JVal.num 1), result := some (.obj [("tools", .arr [])]), error := none }
    ∧ (∀ r, r ∈ (handle_websocket_message (MCPServer.fresh none none) (.ok (.text none))).sent → exactly_one_of_result_error r)
    ∧ parse_error_response.id = none
    ∧ ∀ e, (internal_error_response e).id = none :=
  C8_response_shape (MCPServer.fresh none none)
    { jsonrpc := "2.0", id := some (JVal.num 1), method := "tools/list", params := none }
    { jsonrpc := "2.0", id := some (JVal.num 1), result := some (.obj [("tools", .arr [])]), error := none }
    (.ok (.text none)) rfl

/-- C4: on a tool-protocol connection, a text frame that fails to decode is
answered with exactly one −32700 response; a well-formed non-notification
request with an unknown method with exactly one −32601 response; a
`tools/call` whose handler fails (here: missing params) with exactly one
−32603 response carrying the failure detail in the error data; in each case
the handler returns `Ok` so the connection loop continues, serving the rest
of the event sequence unchanged. -/
theorem C4_request_error_codes (server : MCPServer) (unknownReq req : MCPRequest)
    (evs : List ConnEvent) (sub : Bool)
    (hnotif : (unknownReq.id.isNone && str_starts_with unknownReq.method "notifications/") = false)
    (hunk : unknownReq.method ∉ ["initialize", "tools/list", "tools/call",
        "logging/setLevel", "prompts/list", "prompts/get"])
    (hreq : req.method = "tools/call") (hparams : req.params = none) :
    (handle_websocket_message server (.ok (.text none))).sent.map
        (fun r => r.error.map MCPError.code) = [some (-32700)]
    ∧ (handle_websocket_message server (.ok (.text none))).ok = true
    ∧ (handle_websocket_message server (.ok (.text (some unknownReq)))).sent.map
        (fun r => r.error.map MCPError.code) = [some (-32601)]
    ∧ (handle_websocket_message server (.ok (.text (some unknownReq)))).ok = true
    ∧ (handle_websocket_message server (.ok (.text (some req)))).sent.map
        (fun r => r.error.map MCPError.code) = [some (-32603)]
    ∧ (handle_websocket_message server (.ok (.text (some req)))).sent.map
        (fun r => r.error.bind MCPError.data) =
        [some (.obj [("details", .str "Missing parameters for tools/call")])]
    ∧ (handle_websocket_message server (.ok (.text (some req)))).ok = true
    ∧ conn_loop server sub (ConnEvent.ws (some (.ok (.text none))) :: evs) =
        OutMsg.resp parse_error_response :: conn_loop server sub evs
    ∧ conn_loop server sub (ConnEvent.ws (some (.ok (.text (some unknownReq)))) :: evs) =
        (handle_websocket_message server (.ok (.text (some unknownReq)))).sent.map
          OutMsg.resp ++ conn_loop server sub evs
    ∧ conn_loop server sub (ConnEvent.ws (some (.ok (.text (some req)))) :: evs) =
        (handle_websocket_message server (.ok (.text (some req)))).sent.map
          OutMsg.resp ++ conn_loop server sub evs := by
  simp only [List.mem_cons, List.not_mem_nil, or_false, not_or] at hunk
  obtain ⟨h1, h2, h3, h4, h5, h6⟩ := hunk
  have hur : handle_request server unknownReq =
      .ok { jsonrpc := "2.0", id := unknownReq.id, result := none,
            error := some { code := -32601,
                            message := "Method not found: " ++ unknownReq.method,
                            data := none } } := by
    unfold handle_request handle_request_result
    simp [h1, h2, h3, h4, h5, h6]
  have hwm_unknown : handle_websocket_message server (.ok (.text (some unknownReq))) =
      { sent := [{ jsonrpc := "2.0", id := unknownReq.id, result := none,
                   error := some { code := -32601,
                                   message := "Method not found: " ++ unknownReq.method,
                                   data := none } }], ok := true } := by
    simp only [handle_websocket_message, hnotif, Bool.false_eq_true, if_false, hur]
  have hsw : str_starts_with req.method "notifications/" = false := by
    rw [hreq]; decide
  have hr603 : handle_request server req = .error "Missing parameters for tools/call" := by
    unfold handle_request handle_request_result
    simp [hreq, hparams, handle_tools_call]
  have hwm_req : handle_websocket_message server (.ok (.text (some req))) =
      { sent := [internal_error_response "Missing parameters for tools/call"],
        ok := true } := by
    simp only [handle_websocket_message, hsw, Bool.and_false, Bool.false_eq_true, if_false, hr603]
  refine ⟨rfl, rfl, ?_, ?_, ?_, ?_, ?_, ?_, ?_, ?_⟩
  · rw [hwm_unknown]; rfl
  · rw [hwm_unknown]
  · rw [hwm_req]; rfl
  · rw [hwm_req]; rfl
  · rw [hwm_req]
  · simp [conn_loop, handle_websocket_message, parse_error_response]
  · simp [conn_loop, hwm_unknown]
  · simp [conn_loop, hwm_req]

theorem C4_request_error_codes_witness :
    (handle_websocket_message (MCPServer.fresh none none) (.ok (.text none))).sent.map
        (fun r => r.error.map MCPError.code) = [some (-32700)]
    ∧ (handle_websocket_message (MCPServer.fresh none none) (.ok (.text none))).ok = true
    ∧ (handle_websocket_message (MCPServer.fresh none none)
        (.ok (.text (some { jsonrpc := "2.0", id := some (JVal.num 1), method := "foo/bar", params := none })))).sent.map
        (fun r => r.error.map MCPError.code) = [some (-32601)]
    ∧ (handle_websocket_message (MCPServer.fresh none none)
        (.ok (.text (some { jsonrpc := "2.0", id := some (JVal.num 1), method := "foo/bar", params := none })))).ok = true
    ∧ (handle_websocket_message (MCPServer.fresh none none)
        (.ok (.text (some { jsonrpc := "2.0", id := some (JVal.num 2), method := "tools/call", params := none })))).sent.map
        (fun r => r.error.map MCPError.code) = [some (-32603)]
    ∧ (handle_websocket_message (MCPServer.fresh none none)
        (.ok (.text (some { jsonrpc := "2.0", id := some (JVal.num 2), method := "tools/call", params := none })))).sent.map
        (fun r => r.error.bind MCPError.data) =
        [some (.obj [("details", .str "Missing parameters for tools/call")])]
    ∧ (handle_websocket_message (MCPServer.fresh none none)
        (.ok (.text (some { jsonrpc := "2.0", id := some (JVal.num 2), method := "tools/call", params := none })))).ok = true
    ∧ conn_loop (MCPServer.fresh none none) true (ConnEvent.ws (some (.ok (.text none))) :: []) =
        OutMsg.resp parse_error_response :: conn_loop (MCPServer.fresh none none) true []
    ∧ conn_loop (MCPServer.fresh none none) true
        (ConnEvent.ws (some (.ok (.text (some { jsonrpc := "2.0", id := some (JVal.num 1), method := "foo/bar", params := none })))) :: []) =
        (handle_websocket_message (MCPServer.fresh none none)
          (.ok (.text (some { jsonrpc := "2.0", id := some (JVal.num 1), method := "foo/bar", params := none })))).sent.map
          OutMsg.resp ++ conn_loop (MCPServer.fresh none none) true []
    ∧ conn_loop (MCPServer.fresh none none) true
        (ConnEvent.ws (some (.ok (.text (some { jsonrpc := "2.0", id := some (JVal.num 2), method := "tools/call", params := none })))) :: []) =
        (handle_websocket_message (MCPServer.fresh none none)
          (.ok (.text (some { jsonrpc := "2.0", id := some (JVal.num 2), method := "tools/call", params := none })))).sent.map
          OutMsg.resp ++ conn_loop (MCPServer.fresh none none) true [] :=
  C4_request_error_codes (MCPServer.fresh none none)
    { jsonrpc := "2.0", id := some (JVal.num 1), method := "foo/bar", params := none }
    { jsonrpc := "2.0", id := some (JVal.num 2), method := "tools/call", params := none }
    [] true (by decide) (by decide) rfl rfl

/-- C10: before any selection event has reached a fresh connection's replica,
`tools/call` of `getCurrentSelection` or `getLatestSelection` is answered with
a successful result (`isError:false`, no JSON-RPC error, id echoed) whose
single text content block is a JSON payload with `success:false` and an
explanatory message. -/
theorem C10_selection_before_event (wt cwd : Option String) (id : Option JVal)
    (name : String)
    (hname : name = "getCurrentSelection" ∨ name = "getLatestSelection") :
    ∃ resp result payload msg,
      handle_request (MCPServer.fresh wt cwd)
        { jsonrpc := "2.0", id := id, method := "tools/call",
          params := some (.obj [("name", .str name)]) } = .ok resp
      ∧ resp.error = none
      ∧ resp.id = id
      ∧ resp.result = some result
      ∧ jget result "isError" = some (.bool false)
      ∧ jget result "content" =
          some (.arr [.obj [("type", .str "text"), ("text", payload)]])
      ∧ jget payload "success" = some (.bool false)
      ∧ jget payload "message" = some (.str msg) := by
  rcases hname with rfl | rfl
  · exact ⟨_, _, _, "No active editor found", rfl, rfl, rfl, rfl, rfl, rfl, rfl, rfl⟩
  · exact ⟨_, _, _, "No selection available", rfl, rfl, rfl, rfl, rfl, rfl, rfl, rfl⟩

theorem C10_selection_before_event_witness :
    ∃ resp result payload msg,
      handle_request (MCPServer.fresh none none)
        { jsonrpc := "2.0", id := some (JVal.num 3), method := "tools/call",
          params := some (.obj [("name", .str "getCurrentSelection")]) } = .ok resp
      ∧ resp.error = none
      ∧ resp.id = some (JVal.num 3)
      ∧ resp.result = some result
      ∧ jget result "isError" = some (.bool false)
      ∧ jget result "content" =
          some (.arr [.obj [("type", .str "text"), ("text", payload)]])
      ∧ jget payload "success" = some (.bool false)
      ∧ jget payload "message" = some (.str msg) :=
  C10_selection_before_event none none (some (JVal.num 3)) "getCurrentSelection"
    (Or.inl rfl)
